import Mathlib

/-!
Verification of the credential-manager and automation-session core of
`main.py` (browser-use terminal UI).

The Python code is shallowly embedded:

* Python strings are Lean `String`; the Python string operations used by the
  source (`strip`, `startswith`, `isalnum`, slicing, `in`) are modelled by
  the `py*` helpers below, working over the underlying `List Char`
  (`str.isalnum` is modelled at its ASCII restriction, which covers every
  string the claims touch).
* The process environment mirror maintained by `set_key`/`load_dotenv`
  (`os.getenv` reads) is an association list `Env`; `os.getenv` returning
  `None` is `Option.none`.
* The network-facing probe of `verify_api_key` (client construction plus the
  single `ainvoke` call) is abstracted by a `NetOutcome` parameter: either an
  exception while constructing the client, an exception during the request,
  or a response whose `str(response.content)` rendering is the carried
  string.  All stateful code is explicit state passing.
-/

/-- Python truthiness of an `Optional[str]`: `None` and `""` are falsy. -/
def pyTruthy : Option String → Bool
  | none => false
  | some s => !(s == "")

/-- Whitespace characters removed by Python `str.strip()` (ASCII range). -/
def pySpace (c : Char) : Bool :=
  c == ' ' || c == '\t' || c == '\n' || c == '\r' || c == Char.ofNat 11 || c == Char.ofNat 12

/-- Python `s.strip()`. -/
def pyStrip (s : String) : String :=
  ⟨((s.data.dropWhile pySpace).reverse.dropWhile pySpace).reverse⟩

/-- Python `s.startswith(pre)`. -/
def pyStartsWith (s pre : String) : Bool :=
  pre.data.isPrefixOf s.data

/-- Python `s.isalnum()` (ASCII restriction): nonempty and every character
alphanumeric. -/
def pyIsAlnum (s : String) : Bool :=
  !s.data.isEmpty && s.data.all Char.isAlphanum

/-- Python `s[:n]`. -/
def pyTake (s : String) (n : Nat) : String :=
  ⟨s.data.take n⟩

/-- Python `s[-n:]` for `n > 0`: the last `min n (len s)` characters. -/
def pyTakeLast (s : String) (n : Nat) : String :=
  ⟨(s.data.reverse.take n).reverse⟩

/-- Helper for `strContains`: does `p` occur as a contiguous sublist? -/
def containsSub (p : List Char) : List Char → Bool
  | [] => p.isEmpty
  | c :: t => p.isPrefixOf (c :: t) || containsSub p t

/-- Python `pat in s` (substring test). -/
def strContains (s pat : String) : Bool :=
  containsSub pat.data s.data

/-- The in-process environment view kept in sync with the `.env` file by
`set_key`/`load_dotenv(override=True)`.  `getenv env k = none` models
`os.getenv(k) is None`. -/
def Env : Type := List (String × String)

/-- `os.getenv k`. -/
def getenv (env : Env) (k : String) : Option String :=
  (List.find? (fun p => p.1 == k) env).map (fun p => p.2)

/-- The combined effect of `set_key(dotenv_path, k, v)` followed by
`load_dotenv(dotenv_path, override=True)`: key `k` now maps to `v`, all
other keys are untouched. -/
def setenv (env : Env) (k v : String) : Env :=
  (k, v) :: env.filter (fun p => !(p.1 == k))

/-- One entry of `LLMManager.MODELS` (the `class` factory field is carried
separately, see `build_verification_llm`). -/
structure ModelConfig where
  name : String
  provider : String
  model : String
  key_env : String

deriving instance DecidableEq for ModelConfig

/-- `MODELS["1"]`. -/
def gemini : ModelConfig :=
  { name := "Gemini", provider := "Google", model := "gemini-2.0-flash-exp",
    key_env := "GOOGLE_API_KEY" }

/-- `MODELS["2"]`. -/
def claude : ModelConfig :=
  { name := "Claude", provider := "Anthropic", model := "claude-3-opus-20240229",
    key_env := "ANTHROPIC_API_KEY" }

/-- `MODELS["3"]`. -/
def gpt4 : ModelConfig :=
  { name := "GPT-4", provider := "OpenAI", model := "gpt-4",
    key_env := "OPENAI_API_KEY" }

/-- `LLMManager.MODELS` as an ordered association list (Python dicts keep
insertion order, which `_get_provider` iterates). -/
def MODELS_LIST : List (String × ModelConfig) :=
  [("1", gemini), ("2", claude), ("3", gpt4)]

/-- `cls.MODELS.get(model_id)`: dictionary lookup. -/
def MODELS (model_id : String) : Option ModelConfig :=
  (List.find? (fun p => p.1 == model_id) MODELS_LIST).map (fun p => p.2)

/-- `LLMManager._validate_key_format(provider, key)` (source lines 75-86). -/
def validate_key_format (provider : String) (key : String) : Bool :=
  if key == "" then false
  else if provider == "Google" then pyStartsWith key "AIzaSy"
  else if provider == "OpenAI" then pyStartsWith key "sk-"
  else if provider == "Anthropic" then (key.length == 40) && pyIsAlnum key
  else false

/-- `_validate_key_format` as invoked with the `Optional[str]` result of
`_get_provider`: with `provider is None` every branch of the chained
comparison fails, so the result is `false`. -/
def validate_key_format_opt : Option String → String → Bool
  | some p, k => validate_key_format p k
  | none, _ => false

/-- `LLMManager._mask_key(key)` (source lines 88-93); the argument is the
`Optional[str]` result of `os.getenv`. -/
def mask_key (key : Option String) : String :=
  if pyTruthy key then
    pyTake (key.getD "") 4 ++ "..." ++ pyTakeLast (key.getD "") 4
  else "Not set"

/-- `LLMManager._update_env_safely(key_env, new_key)` (source lines 95-105),
success path: under the file lock, `set_key(dotenv_path, key_env,
new_key.strip())` then `load_dotenv(override=True)`.  File-system failures
(the `except` branch returning `False`) are outside the embedded state. -/
def update_env_safely (env : Env) (key_env new_key : String) : Env :=
  setenv env key_env (pyStrip new_key)

/-- `LLMManager._get_provider(key_env)` (source lines 115-121). -/
def get_provider (key_env : String) : Option String :=
  (List.find? (fun p => p.2.key_env == key_env) MODELS_LIST).map (fun p => p.2.provider)

/-- `LLMManager._revert_key_safely(key_env, old_key)` (source lines 107-113);
`old_key` is the `Optional[str]` snapshot taken before the update. -/
def revert_key_safely (env : Env) (key_env : String) (old_key : Option String) : Env :=
  if pyTruthy old_key && validate_key_format_opt (get_provider key_env) (old_key.getD "") then
    update_env_safely env key_env (old_key.getD "")
  else
    update_env_safely env key_env ""

/-- Outcome of the network-facing part of `verify_api_key`: an exception
while constructing the client (lines 138-159), an exception during the test
request (lines 170-172), or a response whose `str(response.content)` is the
carried string. -/
inductive NetOutcome where
  | initError (msg : String)
  | requestError (msg : String)
  | response (content : String)

deriving instance DecidableEq for NetOutcome

/-- Parameters passed to the provider client constructor. -/
structure ClientParams where
  provider : String
  api_key : String
  model : String
  temperature : Nat

deriving instance DecidableEq for ClientParams

/-- The client constructed by `verify_api_key` (source lines 139-156): each
provider branch passes the stored secret, the configured model name, and
`temperature=0`. -/
def build_verification_llm (config : ModelConfig) (api_key : String) : ClientParams :=
  if config.provider == "Google" then
    { provider := config.provider, api_key := api_key, model := config.model, temperature := 0 }
  else if config.provider == "Anthropic" then
    { provider := config.provider, api_key := api_key, model := config.model, temperature := 0 }
  else
    { provider := config.provider, api_key := api_key, model := config.model, temperature := 0 }

/-- The fixed test prompt issued by `verify_api_key` (source line 163). -/
def VERIFICATION_PROMPT : String :=
  "Respond with exactly \x27OK\x27 and nothing else"

/-- `LLMManager.verify_api_key(model_id)` (source lines 123-176).  An unknown
`model_id` raises `KeyError`, caught by the outermost handler (lines
174-176); its message interpolates the exception text, abbreviated here
since no claim depends on it. -/
def verify_api_key (env : Env) (model_id : String) (net : NetOutcome) : Bool × String :=
  match MODELS model_id with
  | none => (false, "❌ API key verification process error: KeyError")
  | some config =>
    match getenv env config.key_env with
    | none => (false, "No API key found")
    | some api_key =>
      if api_key == "" then (false, "No API key found")
      else if !(validate_key_format config.provider api_key) then
        (false, "❌ Invalid " ++ config.provider ++ " API key format")
      else
        match net with
        | NetOutcome.initError e => (false, "❌ Error initializing LLM: " ++ e)
        | NetOutcome.requestError e => (false, "❌ API key verification failed: " ++ e)
        | NetOutcome.response content =>
          if strContains content "OK" then (true, "✅ API key verified successfully")
          else (false, "❌ API key verification failed: Unexpected response")

/-- `LLMManager.check_api_key(model_id)` (source lines 329-341). -/
def check_api_key (env : Env) (model_id : String) : Bool :=
  match MODELS model_id with
  | none => false
  | some config =>
    match getenv env config.key_env with
    | none => false
    | some api_key =>
      if api_key == "" then false
      else validate_key_format config.provider api_key

/-- The transactional core of `LLMManager.add_update_api_key` (source lines
263-300), from the `model_id` selection onward: reject unknown ids, keep the
current key on empty input, reject format-invalid input, otherwise persist,
verify against the updated environment, and on failed verification revert via
`_revert_key_safely` using the pre-write snapshot `current_key_backup`. -/
def add_update_api_key (env : Env) (model_id : String) (new_key_input : String)
    (net : NetOutcome) : Env :=
  match MODELS model_id with
  | none => env
  | some model =>
    let current_key := getenv env model.key_env
    let new_key := pyStrip new_key_input
    if new_key == "" then env
    else if !(validate_key_format model.provider new_key) then env
    else
      let env1 := update_env_safely env model.key_env new_key
      let result := verify_api_key env1 model_id net
      if result.1 then env1
      else revert_key_safely env1 model.key_env current_key

/-- State of a `BrowserAutomation` instance (source lines 343-374).  The
`browser` and `context` attributes are the owned resource handles (opaque
ids); `browserCtors`/`contextCtors` count how many times `Browser()` and
`browser.new_context()` have been invoked, the observable construction
counters of the idempotence property. -/
structure BrowserAutomation where
  browser : Option Nat := none
  context : Option Nat := none
  browserCtors : Nat := 0
  contextCtors : Nat := 0

deriving instance DecidableEq for BrowserAutomation

/-- `BrowserAutomation.__init__` (source lines 344-347). -/
def newAutomation : BrowserAutomation := {}

/-- `BrowserAutomation.initialize` (source lines 349-362), sequential calls
under `_init_lock`.  `browserOk`/`ctxOk` say whether `Browser()` /
`self.browser.new_context()` would raise.  The result carries the mutated
`self` and the propagated exception, if any: a raise inside the `try` leaves
every attribute assignment made before it in place. -/
def init_session (s : BrowserAutomation) (browserOk ctxOk : Bool) :
    BrowserAutomation × Option String :=
  if s.browser.isSome && s.context.isSome then (s, none)
  else
    let step1 : BrowserAutomation × Option String :=
      match s.browser with
      | none =>
        if browserOk then
          ({ s with browser := some s.browserCtors, browserCtors := s.browserCtors + 1 }, none)
        else (s, some "browser construction failed")
      | some _ => (s, none)
    match step1 with
    | (s1, some e) => (s1, some e)
    | (s1, none) =>
      match s1.context with
      | none =>
        if ctxOk then
          ({ s1 with context := some s1.contextCtors, contextCtors := s1.contextCtors + 1 }, none)
        else (s1, some "context construction failed")
      | some _ => (s1, none)

/-- `init_session` iterated `n` times on the success path (`Browser()` and
`new_context()` both succeed each time). -/
def initIter : Nat → BrowserAutomation → BrowserAutomation
  | 0, s => s
  | n + 1, s => initIter n (init_session s true true).1

/-- `BrowserAutomation.cleanup` (source lines 364-374).  `ctxCloseOk` /
`browserCloseOk` say whether `context.close()` / `browser.close()` would
raise.  Both closes sit inside one `try`; the `except` logs and returns, so
the function itself never raises, which is why the result type has no error
component.  Returns the mutated `self` plus two instrumentation flags:
whether the context close and the browser close were attempted. -/
def cleanup (s : BrowserAutomation) (ctxCloseOk browserCloseOk : Bool) :
    BrowserAutomation × Bool × Bool :=
  match s.context with
  | some _ =>
    if ctxCloseOk then
      let s1 : BrowserAutomation := { s with context := none }
      match s1.browser with
      | some _ =>
        if browserCloseOk then ({ s1 with browser := none }, true, true)
        else (s1, true, true)
      | none => (s1, true, false)
    else (s, true, false)
  | none =>
    match s.browser with
    | some _ =>
      if browserCloseOk then ({ s with browser := none }, false, true)
      else (s, false, true)
    | none => (s, false, false)

/-! ### Helper lemmas -/

theorem getenv_setenv_self (env : Env) (k v : String) :
    getenv (setenv env k v) k = some v := by
  simp [getenv, setenv, List.find?]

theorem getenv_update_env_safely (env : Env) (k v : String) :
    getenv (update_env_safely env k v) k = some (pyStrip v) := by
  simp [update_env_safely, getenv_setenv_self]

theorem pyStrip_empty : pyStrip "" = "" := rfl

theorem getenv_revert_key_safely (env : Env) (k : String) (old_key : Option String) :
    getenv (revert_key_safely env k old_key) k =
      some (if pyTruthy old_key && validate_key_format_opt (get_provider k) (old_key.getD "")
            then pyStrip (old_key.getD "") else "") := by
  unfold revert_key_safely
  split
  next h => simp [getenv_update_env_safely, h]
  next h => simp [getenv_update_env_safely, h, pyStrip_empty]

theorem models_cases (id : String) (m : ModelConfig) (h : MODELS id = some m) :
    (id = "1" ∧ m = gemini) ∨ (id = "2" ∧ m = claude) ∨ (id = "3" ∧ m = gpt4) := by
  by_cases e1 : id = "1"
  · subst e1
    have h0 : MODELS "1" = some gemini := by decide
    rw [h0] at h
    exact Or.inl ⟨rfl, (Option.some.inj h).symm⟩
  by_cases e2 : id = "2"
  · subst e2
    have h0 : MODELS "2" = some claude := by decide
    rw [h0] at h
    exact Or.inr (Or.inl ⟨rfl, (Option.some.inj h).symm⟩)
  by_cases e3 : id = "3"
  · subst e3
    have h0 : MODELS "3" = some gpt4 := by decide
    rw [h0] at h
    exact Or.inr (Or.inr ⟨rfl, (Option.some.inj h).symm⟩)
  · exfalso
    have b1 : (("1" : String) == id) = false := beq_eq_false_iff_ne.mpr (Ne.symm e1)
    have b2 : (("2" : String) == id) = false := beq_eq_false_iff_ne.mpr (Ne.symm e2)
    have b3 : (("3" : String) == id) = false := beq_eq_false_iff_ne.mpr (Ne.symm e3)
    simp [ MODELS, MODELS_LIST, List.find?, b1, b2, b3] at h

theorem get_provider_key_env (id : String) (m : ModelConfig) (h : MODELS id = some m) :
    get_provider m.key_env = some m.provider := by
  rcases models_cases id m h with ⟨_, hm⟩ | ⟨_, hm⟩ | ⟨_, hm⟩ <;> subst hm <;> decide

/-! ### Claims -/

/-- C2 (confirmed): `_validate_key_format` returns `true` exactly per the
provider rules: for "Google" iff the value starts with "AIzaSy"; for
"OpenAI" iff it starts with "sk-"; for "Anthropic" iff it has length exactly
40 and is entirely alphanumeric; for any unknown provider it returns false;
and for an empty value it returns false regardless of provider (an absent
value is the empty/`None` falsy case, rejected by the leading `if not key`
guard).  All of this is packaged in the right-hand side below, which is
false whenever `key = ""` or the provider is none of the three names. -/
theorem c2_validator_rules (provider key : String) :
    validate_key_format provider key = true ↔
      ((provider = "Google" ∧ pyStartsWith key "AIzaSy" = true) ∨
       (provider = "OpenAI" ∧ pyStartsWith key "sk-" = true) ∨
       (provider = "Anthropic" ∧ key.length = 40 ∧ pyIsAlnum key = true)) := by
  have sw1 : pyStartsWith "" "AIzaSy" = false := by decide
  have sw2 : pyStartsWith "" "sk-" = false := by decide
  have al0 : pyIsAlnum "" = false := by decide
  by_cases hk : key = "" <;> by_cases hg : provider = "Google" <;>
    by_cases ho : provider = "OpenAI" <;> by_cases ha : provider = "Anthropic" <;>
    simp_all [validate_key_format, sw1, sw2, al0]

/-- C2 witness: the iff applied at a concrete Anthropic-shaped input. -/
theorem c2_validator_rules_witness :
    validate_key_format "Anthropic" "AAAAAAAAAAAAAAAAAAAAAAAAAAAAAAAAAAAAAAAA" = true :=
  (c2_validator_rules "Anthropic" "AAAAAAAAAAAAAAAAAAAAAAAAAAAAAAAAAAAAAAAA").mpr
    (Or.inr (Or.inr ⟨rfl, by decide, by decide⟩))

/-- C10 counterexample: the claim says the masked display never shows the
secret in full.  But "sk-" is a format-valid OpenAI value (the format check
only requires the "sk-" prefix), and `_mask_key "sk-"` is "sk-...sk-",
which contains the whole secret as a substring: every secret of length at
most 4 reappears verbatim inside the first-4-characters slice. -/
theorem c10_counterexample :
    validate_key_format "OpenAI" "sk-" = true ∧
    strContains (mask_key (some "sk-")) "sk-" = true := by decide

/-- C10 (amended): for every nonempty stored secret the display is exactly
the first 4 characters, a literal "...", and the last 4 characters — so it
reveals at most that fixed-length prefix and suffix (the display depends on
nothing else: two secrets agreeing on those slices mask identically).  For
secrets of length at most 8 those slices cover the whole value, so short
secrets may appear in full. -/
theorem c10_masking (k k1 k2 : String) :
    (k ≠ "" → mask_key (some k) = pyTake k 4 ++ "..." ++ pyTakeLast k 4) ∧
    (k1 ≠ "" → k2 ≠ "" → pyTake k1 4 = pyTake k2 4 → pyTakeLast k1 4 = pyTakeLast k2 4 →
      mask_key (some k1) = mask_key (some k2)) := by
  constructor
  · intro hk
    simp [mask_key, pyTruthy, hk]
  · intro h1 h2 ht hl
    simp [mask_key, pyTruthy, h1, h2, ht, hl]

/-- C10 witness: two secrets differing only in the middle mask identically. -/
theorem c10_masking_witness :
    mask_key (some "abcdXwxyz") = mask_key (some "abcdYwxyz") :=
  (c10_masking "x" "abcdXwxyz" "abcdYwxyz").2 (by decide) (by decide) (by decide) (by decide)

/-- C3 (confirmed): `verify_api_key` fails fast.  If the stored secret is
absent it returns `(false, "No API key found")`, and if the secret is
present (nonempty) but format-invalid it returns the provider-specific
format message — in both cases for every possible network outcome `net`,
i.e. the result does not depend on client construction or the probe at all,
which is the observable content of "no network call is made". -/
theorem c3_verify_fail_fast (env : Env) (model_id : String) (config : ModelConfig)
    (net : NetOutcome) (hm : MODELS model_id = some config) :
    (getenv env config.key_env = none →
      verify_api_key env model_id net = (false, "No API key found")) ∧
    (∀ k, getenv env config.key_env = some k → k ≠ "" →
      validate_key_format config.provider k = false →
      verify_api_key env model_id net =
        (false, "❌ Invalid " ++ config.provider ++ " API key format")) := by
  constructor
  · intro h
    unfold verify_api_key
    rw [hm]
    dsimp only
    rw [h]
  · intro k hk hne hval
    have hbeq : (k == "") = false := beq_eq_false_iff_ne.mpr hne
    unfold verify_api_key
    rw [hm]
    dsimp only
    rw [hk]
    simp [hbeq, hval]

/-- C3 witness: both fail-fast branches at concrete inputs (with a network
outcome that would have verified, showing it is ignored). -/
theorem c3_verify_fail_fast_witness :
    verify_api_key [] "1" (NetOutcome.response "OK") = (false, "No API key found") ∧
    verify_api_key [("GOOGLE_API_KEY", "bad")] "1" (NetOutcome.response "OK") =
      (false, "❌ Invalid Google API key format") := by
  constructor
  · exact (c3_verify_fail_fast [] "1" gemini (NetOutcome.response "OK") (by decide)).1 (by decide)
  · exact ((c3_verify_fail_fast [("GOOGLE_API_KEY", "bad")] "1" gemini
      (NetOutcome.response "OK") (by decide)).2 "bad" (by decide) (by decide)
      (by decide)).trans (by decide)

/-- C4 (confirmed): with a present, nonempty, format-valid stored secret the
probe client is constructed with temperature 0, and verification succeeds
iff the token "OK" occurs as a substring of the textual response content;
any response without that substring yields the fixed failure result. -/
theorem c4_verify_probe (env : Env) (model_id : String) (config : ModelConfig)
    (k content : String) (hm : MODELS model_id = some config)
    (hk : getenv env config.key_env = some k) (hne : k ≠ "")
    (hval : validate_key_format config.provider k = true) :
    (build_verification_llm config k).temperature = 0 ∧
    ((verify_api_key env model_id (NetOutcome.response content)).1 = true ↔
      strContains content "OK" = true) ∧
    (strContains content "OK" = false →
      verify_api_key env model_id (NetOutcome.response content) =
        (false, "❌ API key verification failed: Unexpected response")) := by
  have hbeq : (k == "") = false := beq_eq_false_iff_ne.mpr hne
  refine ⟨?_, ?_, ?_⟩
  · unfold build_verification_llm
    split
    · rfl
    · split <;> rfl
  · unfold verify_api_key
    rw [hm]
    dsimp only
    rw [hk]
    simp only [hbeq, hval]
    by_cases hc : strContains content "OK" = true <;> simp [hc]
  · intro hc
    unfold verify_api_key
    rw [hm]
    dsimp only
    rw [hk]
    simp [hbeq, hval, hc]

/-- C4 witness: a substring hit verifies, a miss does not. -/
theorem c4_verify_probe_witness :
    (verify_api_key [("GOOGLE_API_KEY", "AIzaSyGOOD")] "1" (NetOutcome.response "OK")).1
      = true ∧
    (verify_api_key [("GOOGLE_API_KEY", "AIzaSyGOOD")] "1" (NetOutcome.response "nope")).1
      = false := by
  constructor
  · exact ((c4_verify_probe [("GOOGLE_API_KEY", "AIzaSyGOOD")] "1" gemini "AIzaSyGOOD" "OK"
      (by decide) (by decide) (by decide) (by decide)).2.1).mpr (by decide)
  · have h := (c4_verify_probe [("GOOGLE_API_KEY", "AIzaSyGOOD")] "1" gemini "AIzaSyGOOD"
      "nope" (by decide) (by decide) (by decide) (by decide)).2.2 (by decide)
    rw [h]

/-- C5 (confirmed): an update request with an unknown provider id, or with a
non-empty new value that fails the format check, returns with the
environment untouched (so the stored value of every key is unchanged), and
does so for every network outcome `net` — the persist, verify and rollback
steps are never reached. -/
theorem c5_reject_before_write (env : Env) (model_id new_key_input : String)
    (net : NetOutcome) :
    (MODELS model_id = none → add_update_api_key env model_id new_key_input net = env) ∧
    (∀ m : ModelConfig, MODELS model_id = some m → new_key_input ≠ "" →
      validate_key_format m.provider (pyStrip new_key_input) = false →
      add_update_api_key env model_id new_key_input net = env) := by
  constructor
  · intro h
    unfold add_update_api_key
    rw [h]
  · intro m hm _ hval
    unfold add_update_api_key
    rw [hm]
    dsimp only
    by_cases hs : pyStrip new_key_input = ""
    · simp [hs]
    · have hbeq : (pyStrip new_key_input == "") = false := beq_eq_false_iff_ne.mpr hs
      simp [hbeq, hval]

/-- C5 witness: an unknown id and a bad-format value, each against a store
holding one key, leave the store exactly as it was. -/
theorem c5_reject_before_write_witness :
    add_update_api_key [("GOOGLE_API_KEY", "AIzaSyOLD")] "9" "AIzaSyNEW"
      (NetOutcome.response "OK") = [("GOOGLE_API_KEY", "AIzaSyOLD")] ∧
    add_update_api_key [("GOOGLE_API_KEY", "AIzaSyOLD")] "1" "bad-format"
      (NetOutcome.response "OK") = [("GOOGLE_API_KEY", "AIzaSyOLD")] := by
  constructor
  · exact (c5_reject_before_write _ _ _ _).1 (by decide)
  · exact (c5_reject_before_write _ _ _ _).2 gemini (by decide) (by decide) (by decide)

/-- C6 counterexample: the claim says status computation and the
verification lookup treat an empty-string secret and an absent secret as
different states.  The store itself distinguishes them (first two
conjuncts), but `check_api_key` and `verify_api_key` return identical
results on the two states — the Python truthiness test `if not api_key`
conflates `""` with `None`, reporting "No API key found" even though a key
(the empty removal sentinel) is stored. -/
theorem c6_counterexample :
    getenv [("GOOGLE_API_KEY", "")] "GOOGLE_API_KEY" = some "" ∧
    getenv ([] : Env) "GOOGLE_API_KEY" = none ∧
    check_api_key [("GOOGLE_API_KEY", "")] "1" = check_api_key [] "1" ∧
    verify_api_key [("GOOGLE_API_KEY", "")] "1" (NetOutcome.response "OK") =
      verify_api_key [] "1" (NetOutcome.response "OK") ∧
    verify_api_key [("GOOGLE_API_KEY", "")] "1" (NetOutcome.response "OK") =
      (false, "No API key found") := by decide

/-- C6 (amended): the store keeps the empty string as a value distinct from
an absent key (removal stores `""`, and `get` then returns `some ""`, not
`none`), but the operations that read the secret conflate the two: whenever
the stored secret is absent or empty, status computation reports unusable
and verification reports "No API key found", identically in both states. -/
theorem c6_empty_vs_missing (env : Env) (model_id : String) (config : ModelConfig)
    (net : NetOutcome) (hm : MODELS model_id = some config)
    (h : getenv env config.key_env = none ∨ getenv env config.key_env = some "") :
    check_api_key env model_id = false ∧
    verify_api_key env model_id net = (false, "No API key found") ∧
    getenv (update_env_safely env config.key_env "") config.key_env = some "" := by
  refine ⟨?_, ?_, ?_⟩
  · unfold check_api_key
    rw [hm]
    dsimp only
    rcases h with h | h <;> simp [h]
  · unfold verify_api_key
    rw [hm]
    dsimp only
    rcases h with h | h <;> simp [h]
  · rw [getenv_update_env_safely, pyStrip_empty]

/-- C6 witness: the amended statement applied to a store holding the empty
removal sentinel. -/
theorem c6_empty_vs_missing_witness :
    verify_api_key [("GOOGLE_API_KEY", "")] "1" (NetOutcome.initError "x") =
      (false, "No API key found") :=
  (c6_empty_vs_missing [("GOOGLE_API_KEY", "")] "1" gemini (NetOutcome.initError "x")
    (by decide) (Or.inr (by decide))).2.1

/-- C1 counterexample: the claim says the post-rollback value never equals
`newVal`.  Take `old = "AIzaSyOLD"` stored for Google and update with
`newVal = "AIzaSyOLD"` (re-entering the same key, which is format-valid);
verification of the persisted value fails (response "FAIL" has no "OK"),
the rollback restores `old` — and the stored value now equals `newVal`. -/
theorem c1_counterexample :
    (verify_api_key (update_env_safely [("GOOGLE_API_KEY", "AIzaSyOLD")] "GOOGLE_API_KEY"
        "AIzaSyOLD") "1" (NetOutcome.response "FAIL")).1 = false ∧
    getenv (add_update_api_key [("GOOGLE_API_KEY", "AIzaSyOLD")] "1" "AIzaSyOLD"
        (NetOutcome.response "FAIL")) "GOOGLE_API_KEY" = some "AIzaSyOLD" := by decide

/-- C1 (amended): if an update persists a (trimmed, nonempty, format-valid)
new value and the subsequent verification fails, the stored value afterwards
is exactly: the previous value stripped of surrounding whitespace, when that
previous value was nonempty and format-valid for the provider; the empty
string otherwise.  (So it equals `old` itself whenever `old` carries no
surrounding whitespace, and it can equal `newVal` — only — when `newVal`
coincides with the stripped `old`, as in the counterexample.) -/
theorem c1_rollback (env : Env) (model_id : String) (m : ModelConfig)
    (new_key_input : String) (net : NetOutcome)
    (hm : MODELS model_id = some m)
    (hne : pyStrip new_key_input ≠ "")
    (hval : validate_key_format m.provider (pyStrip new_key_input) = true)
    (hfail : (verify_api_key (update_env_safely env m.key_env (pyStrip new_key_input))
        model_id net).1 = false) :
    getenv (add_update_api_key env model_id new_key_input net) m.key_env =
      some (match getenv env m.key_env with
            | some old =>
              if old ≠ "" ∧ validate_key_format m.provider old = true then pyStrip old else ""
            | none => "") := by
  have hbeq : (pyStrip new_key_input == "") = false := beq_eq_false_iff_ne.mpr hne
  unfold add_update_api_key
  rw [hm]
  dsimp only
  simp only [hbeq, hval, Bool.not_true, Bool.false_eq_true, if_false, hfail,
    getenv_revert_key_safely]
  rw [get_provider_key_env model_id m hm]
  cases hold : getenv env m.key_env with
  | none => simp [pyTruthy]
  | some old =>
    dsimp only [pyTruthy, validate_key_format_opt, Option.getD]
    by_cases h0 : old = ""
    · subst h0
      simp
    · have hb0 : (old == "") = false := beq_eq_false_iff_ne.mpr h0
      by_cases hv : validate_key_format m.provider old = true
      · simp [hb0, hv, h0]
      · have hv2 : validate_key_format m.provider old = false := Bool.eq_false_iff.mpr hv
        simp [hb0, hv2, h0]

/-- C1 witness: a genuine rollback — old Google key stored, distinct new key
persisted, verification fails, old key restored. -/
theorem c1_rollback_witness :
    getenv (add_update_api_key [("GOOGLE_API_KEY", "AIzaSyOLD")] "1" "AIzaSyNEW"
        (NetOutcome.response "nope")) "GOOGLE_API_KEY" = some "AIzaSyOLD" := by
  have h := c1_rollback [("GOOGLE_API_KEY", "AIzaSyOLD")] "1" gemini "AIzaSyNEW"
    (NetOutcome.response "nope") (by decide) (by decide) (by decide) (by decide)
  exact h.trans (by decide)

/-- If both resources are already constructed, `init_session` returns the
state unchanged with no error (the early-return guard). -/
theorem init_session_ready (s : BrowserAutomation) (bOk cOk : Bool)
    (hb : s.browser.isSome = true) (hc : s.context.isSome = true) :
    init_session s bOk cOk = (s, none) := by
  unfold init_session
  rw [hb, hc]
  rfl

/-- Iterating the successful initializer over a ready state is the
identity. -/
theorem initIter_ready (n : Nat) (s : BrowserAutomation)
    (hb : s.browser.isSome = true) (hc : s.context.isSome = true) :
    initIter n s = s := by
  induction n with
  | zero => rfl
  | succ n ih =>
    simp only [initIter]
    rw [init_session_ready s true true hb hc]
    exact ih

/-- C7 (confirmed): initialization is idempotent — on an already-Ready
session (both handles constructed) `initialize` returns immediately with the
state unchanged and no error; and any positive number of sequential
successful calls starting from a fresh `BrowserAutomation` invokes the
browser constructor and the context constructor exactly once each. -/
theorem c7_init_idempotent (s : BrowserAutomation) (bOk cOk : Bool) (n : Nat) :
    (s.browser.isSome = true → s.context.isSome = true →
      init_session s bOk cOk = (s, none)) ∧
    (1 ≤ n → (initIter n newAutomation).browserCtors = 1 ∧
      (initIter n newAutomation).contextCtors = 1) := by
  constructor
  · exact fun hb hc => init_session_ready s bOk cOk hb hc
  · intro hn
    obtain ⟨n, rfl⟩ : ∃ k, n = k + 1 := ⟨n - 1, (Nat.succ_pred_eq_of_pos hn).symm⟩
    have h1 : (init_session newAutomation true true).1 =
        ({ browser := some 0, context := some 0, browserCtors := 1, contextCtors := 1 } :
          BrowserAutomation) := by decide
    simp only [initIter]
    rw [h1, initIter_ready n
      ({ browser := some 0, context := some 0, browserCtors := 1, contextCtors := 1 } :
        BrowserAutomation) rfl rfl]
    exact ⟨rfl, rfl⟩

/-- C7 witness: a ready state passes through unchanged, and two sequential
calls from fresh construct each resource once. -/
theorem c7_init_idempotent_witness :
    init_session { browser := some 0, context := some 0, browserCtors := 1, contextCtors := 1 }
      true true =
      ({ browser := some 0, context := some 0, browserCtors := 1, contextCtors := 1 }, none) ∧
    (initIter 2 newAutomation).browserCtors = 1 ∧
    (initIter 2 newAutomation).contextCtors = 1 := by
  constructor
  · exact (c7_init_idempotent _ true true 2).1 rfl rfl
  · exact (c7_init_idempotent newAutomation true true 2).2 (by decide)

/-- C8 counterexample: the claim says any initialization failure leaves
neither handle set.  Starting from a fresh session, let `Browser()` succeed
and `new_context()` raise: the error propagates, but the freshly constructed
browser handle remains stored on the instance (the `except` block re-raises
without clearing `self.browser`). -/
theorem c8_counterexample :
    (init_session newAutomation true false).2 = some "context construction failed" ∧
    (init_session newAutomation true false).1.browser = some 0 := by decide

/-- C8 (amended): an initialization failure always propagates the underlying
error; a browser-construction failure leaves the state fully unchanged (so a
fresh session stays Uninitialized), but a context-construction failure
retains the browser handle — whether it pre-existed or was constructed in
this very call — with the context still unset. -/
theorem c8_init_failure (s : BrowserAutomation) (bOk cOk : Bool) :
    (s.browser = none → bOk = false →
      init_session s bOk cOk = (s, some "browser construction failed")) ∧
    (s.browser = none → s.context = none →
      init_session s true false =
        ({ s with browser := some s.browserCtors, browserCtors := s.browserCtors + 1 },
          some "context construction failed")) ∧
    (∀ b, s.browser = some b → s.context = none →
      init_session s bOk false = (s, some "context construction failed")) := by
  refine ⟨?_, ?_, ?_⟩
  · intro hb hbOk
    simp [init_session, hb, hbOk]
  · intro hb hc
    simp [init_session, hb, hc]
  · intro b hb hc
    simp [init_session, hb, hc]

/-- C8 witness: all three failure shapes at concrete states. -/
theorem c8_init_failure_witness :
    init_session newAutomation false false =
      (newAutomation, some "browser construction failed") ∧
    init_session newAutomation true false =
      ({ browser := some 0, context := none, browserCtors := 1, contextCtors := 0 },
        some "context construction failed") ∧
    init_session { browser := some 7, context := none, browserCtors := 1, contextCtors := 0 }
      true false =
      ({ browser := some 7, context := none, browserCtors := 1, contextCtors := 0 },
        some "context construction failed") := by
  refine ⟨?_, ?_, ?_⟩
  · exact (c8_init_failure newAutomation false false).1 rfl rfl
  · exact ((c8_init_failure newAutomation true false).2.1 rfl rfl).trans (by decide)
  · exact (c8_init_failure _ true false).2.2 7 rfl rfl

/-- C9 counterexample: the claim says the two closes are independently
guarded and the session always ends Closed (both handles null).  With both
handles set and a context close that raises, the single shared `except`
swallows the error before the browser close is ever attempted (third
conjunct), and both handles remain set. -/
theorem c9_counterexample :
    (cleanup { browser := some 0, context := some 1 } false true).1.context = some 1 ∧
    (cleanup { browser := some 0, context := some 1 } false true).1.browser = some 0 ∧
    (cleanup { browser := some 0, context := some 1 } false true).2.2 = false := by decide

/-- C9 (amended): teardown never raises (the shared handler swallows close
failures, so the function is total with no error outcome), and when every
attempted close succeeds it leaves both handles null; but the closes share
one guard, so a failing context close returns with the state unchanged —
both handles still set — without attempting the browser close. -/
theorem c9_cleanup_guard (s : BrowserAutomation) (browserCloseOk : Bool) :
    ((cleanup s true true).1.context = none ∧ (cleanup s true true).1.browser = none) ∧
    (∀ x, s.context = some x → cleanup s false browserCloseOk = (s, true, false)) := by
  constructor
  · cases hc : s.context <;> cases hb : s.browser <;> simp [cleanup, hc, hb]
  · intro x hx
    simp [cleanup, hx]

/-- C9 witness: successful closes empty both handles; a failing context
close leaves the state untouched and skips the browser close. -/
theorem c9_cleanup_guard_witness :
    (cleanup { browser := some 0, context := some 1 } true true).1.context = none ∧
    (cleanup { browser := some 0, context := some 1 } true true).1.browser = none ∧
    cleanup { browser := some 0, context := some 1 } false true =
      ({ browser := some 0, context := some 1 }, true, false) := by
  refine ⟨?_, ?_, ?_⟩
  · exact (c9_cleanup_guard { browser := some 0, context := some 1 } true).1.1
  · exact (c9_cleanup_guard { browser := some 0, context := some 1 } true).1.2
  · exact (c9_cleanup_guard { browser := some 0, context := some 1 } true).2 1 rfl
